/-
Verification of `src/python/CRABClient/UserUtilities.py`.

The module is glue code around external processes: each Python function is
embedded as an executable Lean function in which the external effects are
explicit parameters:
  * `execute_command` becomes a parameter `env : String → ExecResult`
    mapping a command line to the (stdout, stderr, returncode) triple it
    produces;
  * `json.loads` becomes a parameter `parse : String → JSON` mapping the
    captured stdout to the parsed JSON value (the claims under study never
    depend on a parse failure, only on the shape of the parsed value);
  * the filesystem state at the download destination becomes an
    `Option String` (the content of the file, `none` when absent);
  * Python exceptions become the `Except PyError` monad.
Python dictionary / list subscripting is modelled by `Except`-valued
accessors on a `JSON` value so that unhandled `KeyError` / `IndexError` /
`TypeError` are distinguishable from the module's own `ClientException` /
`UsernameException`.
-/
import Mathlib

set_option autoImplicit false

/-- Result triple of the external `execute_command` helper
(stdout, stderr, returncode). -/
structure ExecResult where
  stdout : String
  stderr : String
  returncode : Int
  deriving DecidableEq, Repr

/-- A JSON value, the shape `json.loads` returns. -/
inductive JSON where
  | null
  | bool (b : Bool)
  | num (n : Int)
  | str (s : String)
  | arr (elems : List JSON)
  | obj (fields : List (String × JSON))
  deriving Repr

/-- Python exceptions that the embedded functions can raise.
`clientException` and `usernameException` are the module's own error types;
the others model unhandled builtin exceptions escaping the function. -/
inductive PyError where
  | clientException (msg : String)
  | usernameException (msg : String)
  | keyError (key : String)
  | indexError
  | typeError
  | osError
  | valueError
  deriving DecidableEq, Repr

namespace JSON

/-- Python truthiness of a value, as used in `if file['is_file_valid']:`. -/
def truthy : JSON → Bool
  | .null => false
  | .bool b => b
  | .num n => n != 0
  | .str s => s != ""
  | .arr xs => !xs.isEmpty
  | .obj kvs => !kvs.isEmpty

/-- Association lookup inside an object, first binding wins
(JSON objects produced by `json.loads` have unique keys). -/
def lookupKey (key : String) : List (String × JSON) → Option JSON
  | [] => none
  | (k, v) :: rest => if k = key then some v else lookupKey key rest

/-- Python `value[key]` for a string key: `KeyError` when the key is absent
from a dict, `TypeError` when the value is not subscriptable by a string. -/
def getKey (v : JSON) (key : String) : Except PyError JSON :=
  match v with
  | .obj kvs =>
    match lookupKey key kvs with
    | some w => .ok w
    | none => .error (.keyError key)
  | _ => .error .typeError

/-- Python `value[0]`: list indexing (`IndexError` when out of range),
string indexing yields a one-character string, everything else is a
`TypeError` (a dict would raise `KeyError`, folded into `typeError` here:
either way the claims only need that it is not a `ClientException`). -/
def getIdx0 (v : JSON) : Except PyError JSON :=
  match v with
  | .arr [] => .error .indexError
  | .arr (x :: _) => .ok x
  | .str s => if s = "" then .error .indexError else .ok (.str (String.singleton (s.get 0)))
  | _ => .error .typeError

/-- Python `for x in value:`: iterating a list yields its elements, a string
its one-character substrings, a dict its keys; other values raise
`TypeError`. -/
def toIter (v : JSON) : Except PyError (List JSON) :=
  match v with
  | .arr xs => .ok xs
  | .str s => .ok (s.toList.map fun c => .str (String.singleton c))
  | .obj kvs => .ok (kvs.map fun kv => .str kv.1)
  | _ => .error .typeError

/-- Python `str(value)` as used when interpolating with `%s`.  For a string
this is the identity, exactly as in Python; composite values are rendered
in a repr-like form (Python's exact escaping of nested strings is not
reproduced; no property below ever reaches those cases, since the DBS
schema's `name` field is a string). -/
def pyStr : JSON → String
  | .null => "None"
  | .bool true => "True"
  | .bool false => "False"
  | .num n => toString n
  | .str s => s
  | .arr _ => "[...]"
  | .obj _ => "\x7b...\x7d"

end JSON

/-- Python `s.replace('\n', pad)` for the one-character pattern `'\n'`:
every newline is replaced by `pad` (used to indent captured output inside
diagnostic messages). -/
def replaceNewlines (pad : String) (s : String) : String :=
  String.join (s.toList.map fun c => if c = '\n' then pad else String.singleton c)

/-! ## `getLumiListInValidFiles` (UserUtilities.py lines 145-214) -/

/-- Message built by the nested helper `complain` before it raises
`ClientException` (stdout / stderr are appended only when non-empty, each
embedded with its newlines indented by four spaces). -/
def complainMsg (cmd stdout stderr : String) (returncode : Int) : String :=
  let msg := "Failed executing " ++ cmd ++ ". Exitcode is " ++ toString returncode
  let msg := if stdout ≠ "" then
      msg ++ "\n  Stdout:\n    " ++ replaceNewlines "\n    " stdout else msg
  let msg := if stderr ≠ "" then
      msg ++ "\n  Stderr:\n    " ++ replaceNewlines "\n    " stderr else msg
  msg

/-- `dasCmd % query`: the dasgoclient command line with the query filled in
(note the double space coming from `"dasgoclient --query " + " \x27%s..."`). -/
def dasCmd (dbsurl query : String) : String :=
  "dasgoclient --query " ++ " \x27" ++ query ++ " instance=" ++ "prod/" ++ dbsurl ++ "\x27 --json"

/-- The file-enumeration command for a dataset. -/
def fileDatasetCmd (dbsurl dataset : String) : String :=
  dasCmd dbsurl ("file dataset=" ++ dataset)

/-- The lumi-enumeration command for one file (the file name is interpolated
with `%s`, hence `JSON.pyStr`). -/
def lumiFileCmd (dbsurl : String) (file : JSON) : String :=
  dasCmd dbsurl ("lumi file=" ++ file.pyStr)

/-- Body of the first `for record in result:` loop:
`record['file'][0]`, the validity test, and (only when valid)
`file['name']`; `some name` for a valid file, `none` for an invalid one. -/
def fileRecordName (record : JSON) : Except PyError (Option JSON) := do
  let fileList ← record.getKey "file"
  let file ← fileList.getIdx0
  let valid ← file.getKey "is_file_valid"
  if valid.truthy then
    let name ← file.getKey "name"
    return some name
  else
    return none

/-- The first `for record in result:` loop: collect `file['name']` of every
record whose `file['is_file_valid']` is truthy, appending in order. -/
def validFilesLoop : List JSON → List JSON → Except PyError (List JSON)
  | [], acc => .ok acc
  | record :: rest, acc => do
    match ← fileRecordName record with
    | some name => validFilesLoop rest (acc ++ [name])
    | none => validFilesLoop rest acc

/-- Body of the inner `for lumiInfo in result:` loop:
`lumiInfo['lumi'][0]`, then `run_number` and `lumi_section_num`. -/
def lumiRecordPair (lumiInfo : JSON) : Except PyError (JSON × JSON) := do
  let lumiList ← lumiInfo.getKey "lumi"
  let lumiDict ← lumiList.getIdx0
  let run ← lumiDict.getKey "run_number"
  let lumi ← lumiDict.getKey "lumi_section_num"
  return (run, lumi)

/-- The inner `for lumiInfo in result:` loop: append one
`(run_number, lumi_section_num)` pair per record, in order. -/
def lumiPairsLoop : List JSON → List (JSON × JSON) → Except PyError (List (JSON × JSON))
  | [], acc => .ok acc
  | lumiInfo :: rest, acc => do
    let pair ← lumiRecordPair lumiInfo
    lumiPairsLoop rest (acc ++ [pair])

/-- The outer `for file in validFiles:` loop: one dasgoclient query per valid
file; a nonzero exit code or empty stdout raises `ClientException` via
`complain`, otherwise the parsed records feed `lumiPairsLoop` on the shared
accumulator. -/
def lumisOfFilesLoop (env : String → ExecResult) (parse : String → JSON) (dbsurl : String) :
    List JSON → List (JSON × JSON) → Except PyError (List (JSON × JSON))
  | [], acc => .ok acc
  | file :: rest, acc =>
    let cmd := lumiFileCmd dbsurl file
    let r := env cmd
    if r.returncode ≠ 0 ∨ r.stdout = "" then
      .error (.clientException (complainMsg cmd r.stdout r.stderr r.returncode))
    else do
      let records ← (parse r.stdout).toIter
      let acc2 ← lumiPairsLoop records acc
      lumisOfFilesLoop env parse dbsurl rest acc2

/-- The external `LumiList` object (FWCore.PythonUtilities).  Modelled from
the spec: the interval list is "treated as an opaque sink" that accumulates
the (run, lumi) pairs handed to its constructor, so it is embedded as that
sequence of pairs, in construction order. -/
structure LumiList where
  lumis : List (JSON × JSON)
  deriving Repr

/-- `getLumiListInValidFiles(dataset, dbsurl)`: enumerate the dataset's
files, keep the valid ones, query each one's lumis, and build a `LumiList`
from all collected (run, lumi) pairs. -/
def getLumiListInValidFiles (env : String → ExecResult) (parse : String → JSON)
    (dataset : String) (dbsurl : String := "phys03") : Except PyError LumiList :=
  let cmd := fileDatasetCmd dbsurl dataset
  let r := env cmd
  if r.returncode ≠ 0 ∨ r.stdout = "" then
    .error (.clientException (complainMsg cmd r.stdout r.stderr r.returncode))
  else do
    let records ← (parse r.stdout).toIter
    let validFiles ← validFilesLoop records []
    let pairs ← lumisOfFilesLoop env parse dbsurl validFiles []
    return ⟨pairs⟩

/-! ## Encodings of well-formed DAS responses

The docstrings in `getLumiListInValidFiles` describe the shape of the two
query responses; these encoders build exactly those JSON shapes from the
abstract content (validity flag + name per file, (run, lumi) per lumi). -/

/-- One record of the `file dataset=...` response: keys `das`, `qhash` and
`file`, the latter a single-element list with the DBS file fields. -/
def encodeFileRecord (valid : Bool) (name : String) : JSON :=
  .obj [("das", .null), ("qhash", .null),
        ("file", .arr [.obj [("is_file_valid", .num (if valid then 1 else 0)),
                             ("name", .str name)]])]

/-- The full `file dataset=...` response for a list of (flag, name) files. -/
def encodeFileRecords (files : List (Bool × String)) : JSON :=
  .arr (files.map fun f => encodeFileRecord f.1 f.2)

/-- One record of the `lumi file=...` response: keys `das`, `qhash` and
`lumi`, the latter a single-element list carrying `run_number` and
`lumi_section_num` among the documented fields. -/
def encodeLumiRecord (run lumi : Int) : JSON :=
  .obj [("das", .null), ("qhash", .null),
        ("lumi", .arr [.obj [("event_count", .null), ("file", .null),
                             ("lumi_section_num", .num lumi), ("nevents", .null),
                             ("number", .null), ("run_number", .num run)]])]

/-- The full `lumi file=...` response for a list of (run, lumi) pairs. -/
def encodeLumiRecords (pairs : List (Int × Int)) : JSON :=
  .arr (pairs.map fun p => encodeLumiRecord p.1 p.2)

/-! ## `curlGetFileFromURL` (UserUtilities.py lines 107-142) -/

/-- Decimal digits to a natural number, most significant first. -/
def digitsToNat (ds : List Char) : Nat :=
  ds.foldl (fun a c => a * 10 + (c.toNat - 48)) 0

/-- Python `int(s)`: strip surrounding whitespace, then parse an optionally
signed decimal integer; anything else raises `ValueError`. -/
def pyInt (s : String) : Option Int :=
  let cs := ((s.toList.dropWhile Char.isWhitespace).reverse.dropWhile
    Char.isWhitespace).reverse
  match cs with
  | [] => none
  | '-' :: ds =>
    if !ds.isEmpty ∧ ds.all Char.isDigit then some (-(digitsToNat ds : Int)) else none
  | '+' :: ds =>
    if !ds.isEmpty ∧ ds.all Char.isDigit then some (digitsToNat ds : Int) else none
  | ds =>
    if ds.all Char.isDigit then some (digitsToNat ds : Int) else none

/-- Observable outcome of `curlGetFileFromURL`: the returned HTTP code, the
final state of the destination file (content, or `none` when absent) and
the `errorDetails` string captured for diagnostic logging. -/
structure CurlOutcome where
  httpCode : Int
  fileState : Option String
  errorDetails : String
  deriving DecidableEq, Repr

/-- `curlGetFileFromURL(url, filename, ...)` after the curl command has run:
`r` is the (stdout, stderr, returncode) of the command and `fileAfterCmd`
the destination-file state it left behind.  A nonzero exit unlinks the file
and reports 503 (`os.unlink` raising `FileNotFoundError` when the command
left no file); otherwise the HTTP code is `int(stdout)` and any non-200
code makes the function read the body into `errorDetails` and unlink. -/
def curlGetFileFromURL (r : ExecResult) (fileAfterCmd : Option String) :
    Except PyError CurlOutcome :=
  if r.returncode ≠ 0 then
    match fileAfterCmd with
    | some _ => .ok ⟨503, none, ""⟩
    | none => .error .osError
  else
    match pyInt r.stdout with
    | none => .error .valueError
    | some httpCode =>
      if httpCode ≠ 200 then
        match fileAfterCmd with
        | some body => .ok ⟨httpCode, none, body⟩
        | none => .error .osError
      else
        .ok ⟨httpCode, fileAfterCmd, ""⟩

/-! ## `getColumn` (UserUtilities.py lines 252-258) -/

/-- Python `list.index(a)`: index of the first occurrence, `ValueError`
when absent (modelled as `none`). -/
def listIndex (a : String) : List String → Option Nat
  | [] => none
  | x :: xs => if x = a then some 0 else (listIndex a xs).map (· + 1)

/-- The structured result handed to `getColumn`: the `desc.columns` ordered
names and the positional `result` values (spec section 3, "Status
dictionary"). -/
structure DictResult where
  columns : List String
  result : List JSON
  deriving Repr

/-- The `if value=='None': return None` translation at the end of
`getColumn`: the literal string `"None"` becomes Python `None` (absent),
every other value passes through. -/
def noneSentinel (value : JSON) : Option JSON :=
  match value with
  | .str s => if s = "None" then none else some value
  | _ => some value

/-- `getColumn(dictresult, columnName)`: position of the name in
`desc.columns` (raising `ValueError` when absent), the value at that
position in `result` (raising `IndexError` when out of range), with the
literal string `"None"` translated to Python `None` (`Option.none`). -/
def getColumn (dictresult : DictResult) (columnName : String) :
    Except PyError (Option JSON) :=
  match listIndex columnName dictresult.columns with
  | none => .error .valueError
  | some columnIndex =>
    match dictresult.result[columnIndex]? with
    | none => .error .indexError
    | some value => .ok (noneSentinel value)

/-! ## `getUsernameFromCRIC` (UserUtilities.py lines 62-105) -/

/-- Python falsiness of an optional string (`None` or `""`). -/
def falsyStr : Option String → Bool
  | none => true
  | some s => s = ""

/-- The curl query against the CRIC whoami endpoint, with the proxy file as
both cert and key. -/
def cricQueryCmd (capath proxy : String) : String :=
  "curl -sS --capath " ++ capath ++ " --cert " ++ proxy ++ " --key " ++ proxy ++
    " \x27https://cms-cric.cern.ch/api/accounts/user/query/?json&preset=whoami\x27"

/-- The shell pipeline that extracts the token after `login` from the CRIC
response (the `\n` inside `tr` is a literal newline in the Python string). -/
def cricParseCmd (stdout : String) : String :=
  "echo \x27" ++ stdout ++ "\x27 | tr \x27:,\x27 \x27\n\x27 | grep -A1 login | tail -1 | tr -d \x27 \n\"\x27"

/-- Terminal colour escapes from the external `ClientUtilities.colors`;
their concrete values are environment-dependent and irrelevant to every
property below (they only decorate the diagnostic message). -/
def colorsBOLD : String := "\x1b[1m"

/-- See `colorsBOLD`. -/
def colorsNORMAL : String := "\x1b[0m"

/-- Diagnostic raised when the CRIC query command fails. -/
def cricQueryErrMsg (queryCmd stdout stderr : String) : String :=
  "Error contacting CRIC." ++
  "\nDetails follow:" ++
  "\n  Executed command: " ++ queryCmd ++
  "\n    Stdout:\n      " ++ replaceNewlines "\n      " stdout ++
  "\n    Stderr:\n      " ++ replaceNewlines "\n      " stderr

/-- Diagnostic raised when the parsed username is empty or `null`. -/
def cricParseErrMsg (queryCmd stdout username : String) : String :=
  "Failed to retrieve username from CRIC." ++
  "\nDetails follow:" ++
  "\n  Executed command: " ++ queryCmd ++
  "\n    Stdout:\n      " ++ replaceNewlines "\n      " stdout ++
  "\n    Parsed username: " ++ username ++
  "\n" ++ colorsBOLD ++ "Note" ++ colorsNORMAL ++
  ": Make sure you have the correct certificate mapped in your CERN account page" ++
  " (you can check what is the certificate you currently have mapped" ++
  " by looking at CERN Certificatiom Authority page." ++
  "\nFor instructions on how to map a certificate, see " ++
  "\n  https://twiki.cern.ch/twiki/bin/view/CMSPublic/UsernameForCRAB#Adding_your_DN_to_your_profile"

/-- The proxy file used by `getUsernameFromCRIC` after the
`getUserProxy()` fallback (`userProxy` is the value that external call
would return). -/
def resolvedProxy (userProxy proxyFileName : Option String) : Option String :=
  if falsyStr proxyFileName then userProxy else proxyFileName

/-- `getUsernameFromCRIC(proxyFileName)`: resolve the proxy file (falling
back to the external `getUserProxy()`, passed in as `userProxy`), query
CRIC, and extract the username with a shell pipeline whose exit code is
ignored.  Raises `UsernameException` when no proxy file is found, when the
query command exits nonzero or prints nothing, or when the parsed username
is empty or the literal `null`. -/
def getUsernameFromCRIC (env : String → ExecResult) (userProxy : Option String)
    (capath : String) (proxyFileName : Option String) : Except PyError String :=
  let p := resolvedProxy userProxy proxyFileName
  if falsyStr p then .error (.usernameException "Can't find user proxy file")
  else
    let proxy := p.getD ""
    let queryCmd := cricQueryCmd capath proxy
    let r := env queryCmd
    if r.returncode ≠ 0 ∨ r.stdout = "" then
      .error (.usernameException (cricQueryErrMsg queryCmd r.stdout r.stderr))
    else
      let username := (env (cricParseCmd r.stdout)).stdout
      if username = "null" ∨ username = "" then
        .error (.usernameException (cricParseErrMsg queryCmd r.stdout username))
      else
        .ok username

/-! ## `getMutedStatusInfo` (UserUtilities.py lines 234-250) -/

/-- The status dictionary returned by the external status command: the
`statusFailureMsg` entry the module inspects, plus the rest of the mapping
left opaque. -/
structure StatusDict where
  statusFailureMsg : String
  rest : List (String × JSON)
  deriving Repr

/-- Ambient state touched by `getMutedStatusInfo`: the console log level
and the sequence of messages logged at error level. -/
structure ConsoleState where
  consoleLevel : Int
  errorLog : List String
  deriving Repr

/-- `getMutedStatusInfo(logger)`: lower the console level to the mute
level, invoke the status command object (`statusCall`, a function of the
console level it observes), restore the previous level, and log any
embedded failure message at error level.  When the call raises, the
exception propagates before the restore statement runs. -/
def getMutedStatusInfo {ε : Type} (muteLevel : Int)
    (statusCall : Int → Except ε StatusDict) (s : ConsoleState) :
    Except ε StatusDict × ConsoleState :=
  let s1 : ConsoleState := { s with consoleLevel := muteLevel }
  match statusCall s1.consoleLevel with
  | .error e => (.error e, s1)
  | .ok statusDict =>
    let s2 : ConsoleState := { s1 with consoleLevel := s.consoleLevel }
    if statusDict.statusFailureMsg != "" then
      (.ok statusDict,
       { s2 with errorLog := s2.errorLog ++
          ["Error while getting status information. Got:\n" ++ statusDict.statusFailureMsg ++ " "] })
    else
      (.ok statusDict, s2)

/-! ## General lemmas -/

theorem exceptBind_ok {ε α β : Type} (x : α) (f : α → Except ε β) :
    (do let y ← (.ok x : Except ε α); f y) = f x := rfl

theorem exceptBind_error {ε α β : Type} (e : ε) (f : α → Except ε β) :
    (do let y ← (.error e : Except ε α); f y) = .error e := rfl

/-- Either error of a dict / list access is a lookup or indexing error. -/
def PyError.isLookup : PyError → Bool
  | .keyError _ => true
  | .indexError => true
  | .typeError => true
  | _ => false

theorem getKey_error_isLookup (v : JSON) (key : String) (e : PyError)
    (h : v.getKey key = .error e) : e.isLookup = true := by
  cases v <;> simp only [JSON.getKey] at h
  case obj kvs =>
    cases hk : JSON.lookupKey key kvs <;> rw [hk] at h
    · cases h; rfl
    · cases h
  all_goals (cases h; rfl)

theorem getIdx0_error_isLookup (v : JSON) (e : PyError)
    (h : v.getIdx0 = .error e) : e.isLookup = true := by
  cases v <;> simp only [JSON.getIdx0] at h
  case arr xs => cases xs with
    | nil => cases h; rfl
    | cons x rest => cases h
  case str s =>
    by_cases hs : s = "" <;> simp [hs] at h
    cases h; rfl
  all_goals (cases h; rfl)

/-- A failing per-record extraction in the file loop is always an unhandled
lookup / indexing error, never a `ClientException`. -/
theorem fileRecordName_error_isLookup (record : JSON) (e : PyError)
    (h : fileRecordName record = .error e) : e.isLookup = true := by
  unfold fileRecordName at h
  cases h1 : record.getKey "file" with
  | error e1 =>
    rw [h1, exceptBind_error] at h
    cases h; exact getKey_error_isLookup _ _ _ h1
  | ok fileList =>
    rw [h1, exceptBind_ok] at h
    cases h2 : fileList.getIdx0 with
    | error e2 =>
      rw [h2, exceptBind_error] at h
      cases h; exact getIdx0_error_isLookup _ _ h2
    | ok file =>
      rw [h2, exceptBind_ok] at h
      cases h3 : file.getKey "is_file_valid" with
      | error e3 =>
        rw [h3, exceptBind_error] at h
        cases h; exact getKey_error_isLookup _ _ _ h3
      | ok valid =>
        rw [h3, exceptBind_ok] at h
        by_cases hv : valid.truthy <;> simp only [hv, if_true, if_false, Bool.false_eq_true] at h
        · cases h4 : file.getKey "name" with
          | error e4 =>
            rw [h4, exceptBind_error] at h
            cases h; exact getKey_error_isLookup _ _ _ h4
          | ok name => rw [h4, exceptBind_ok] at h; cases h
        · cases h

/-- A failing per-record extraction in the lumi loop is always an unhandled
lookup / indexing error, never a `ClientException`. -/
theorem lumiRecordPair_error_isLookup (lumiInfo : JSON) (e : PyError)
    (h : lumiRecordPair lumiInfo = .error e) : e.isLookup = true := by
  unfold lumiRecordPair at h
  cases h1 : lumiInfo.getKey "lumi" with
  | error e1 =>
    rw [h1, exceptBind_error] at h
    cases h; exact getKey_error_isLookup _ _ _ h1
  | ok lumiList =>
    rw [h1, exceptBind_ok] at h
    cases h2 : lumiList.getIdx0 with
    | error e2 =>
      rw [h2, exceptBind_error] at h
      cases h; exact getIdx0_error_isLookup _ _ h2
    | ok lumiDict =>
      rw [h2, exceptBind_ok] at h
      cases h3 : lumiDict.getKey "run_number" with
      | error e3 =>
        rw [h3, exceptBind_error] at h
        cases h; exact getKey_error_isLookup _ _ _ h3
      | ok run =>
        rw [h3, exceptBind_ok] at h
        cases h4 : lumiDict.getKey "lumi_section_num" with
        | error e4 =>
          rw [h4, exceptBind_error] at h
          cases h; exact getKey_error_isLookup _ _ _ h4
        | ok lumi => rw [h4, exceptBind_ok] at h; cases h

theorem fileRecordName_encode (v : Bool) (n : String) :
    fileRecordName (encodeFileRecord v n) = .ok (if v then some (.str n) else none) := by
  cases v <;> rfl

theorem lumiRecordPair_encode (run lumi : Int) :
    lumiRecordPair (encodeLumiRecord run lumi) = .ok (.num run, .num lumi) := rfl

/-- Consuming a prefix of well-formed file records: the valid names among
them are appended to the accumulator, in order. -/
theorem validFilesLoop_encoded_front (pre : List (Bool × String)) (restRecs : List JSON)
    (acc : List JSON) :
    validFilesLoop ((pre.map fun f => encodeFileRecord f.1 f.2) ++ restRecs) acc =
      validFilesLoop restRecs (acc ++ (pre.filter fun f => f.1).map fun f => JSON.str f.2) := by
  induction pre generalizing acc with
  | nil => simp
  | cons f rest ih =>
    obtain ⟨v, n⟩ := f
    cases v <;>
      simp [validFilesLoop, fileRecordName_encode, exceptBind_ok, ih, List.filter_cons]

/-- A malformed record after a well-formed prefix aborts the file loop with
the record's own extraction error. -/
theorem validFilesLoop_encoded_error (pre : List (Bool × String)) (bad : JSON)
    (post : List JSON) (e : PyError) (hbad : fileRecordName bad = .error e)
    (acc : List JSON) :
    validFilesLoop ((pre.map fun f => encodeFileRecord f.1 f.2) ++ bad :: post) acc =
      .error e := by
  rw [validFilesLoop_encoded_front]
  simp [validFilesLoop, hbad, exceptBind_error]

/-- Consuming a prefix of well-formed lumi records: one pair per record is
appended to the accumulator, in order. -/
theorem lumiPairsLoop_encoded_front (pairs : List (Int × Int)) (restRecs : List JSON)
    (acc : List (JSON × JSON)) :
    lumiPairsLoop ((pairs.map fun p => encodeLumiRecord p.1 p.2) ++ restRecs) acc =
      lumiPairsLoop restRecs (acc ++ pairs.map fun p => (JSON.num p.1, JSON.num p.2)) := by
  induction pairs generalizing acc with
  | nil => simp
  | cons p rest ih =>
    simp [lumiPairsLoop, lumiRecordPair_encode, exceptBind_ok, ih]

/-- A malformed record after a well-formed prefix aborts the lumi loop with
the record's own extraction error. -/
theorem lumiPairsLoop_encoded_error (pairs : List (Int × Int)) (bad : JSON)
    (post : List JSON) (e : PyError) (hbad : lumiRecordPair bad = .error e)
    (acc : List (JSON × JSON)) :
    lumiPairsLoop ((pairs.map fun p => encodeLumiRecord p.1 p.2) ++ bad :: post) acc =
      .error e := by
  rw [lumiPairsLoop_encoded_front]
  simp [lumiPairsLoop, hbad, exceptBind_error]

/-- The lumi query of file `f` succeeds with a well-formed response
describing the pairs `pairsOf f.pyStr`. -/
def lumiQueryOk (env : String → ExecResult) (parse : String → JSON) (dbsurl : String)
    (pairsOf : String → List (Int × Int)) (f : JSON) : Prop :=
  (env (lumiFileCmd dbsurl f)).returncode = 0 ∧
  (env (lumiFileCmd dbsurl f)).stdout ≠ "" ∧
  parse (env (lumiFileCmd dbsurl f)).stdout = encodeLumiRecords (pairsOf f.pyStr)

/-- Consuming a prefix of valid files whose lumi queries all succeed with
well-formed responses: their pairs are appended to the accumulator in
order. -/
theorem lumisOfFilesLoop_front (env : String → ExecResult) (parse : String → JSON)
    (dbsurl : String) (pairsOf : String → List (Int × Int)) (pre : List String)
    (restFiles : List JSON) (acc : List (JSON × JSON))
    (h : ∀ n ∈ pre, lumiQueryOk env parse dbsurl pairsOf (.str n)) :
    lumisOfFilesLoop env parse dbsurl (pre.map JSON.str ++ restFiles) acc =
      lumisOfFilesLoop env parse dbsurl restFiles
        (acc ++ pre.flatMap fun n => (pairsOf n).map fun p => (JSON.num p.1, JSON.num p.2)) := by
  induction pre generalizing acc with
  | nil => simp
  | cons n rest ih =>
    obtain ⟨hrc, hout, hparse⟩ := h n (by simp)
    have hrest : ∀ m ∈ rest, lumiQueryOk env parse dbsurl pairsOf (.str m) :=
      fun m hm => h m (by simp [hm])
    rw [List.map_cons, List.cons_append]
    show lumisOfFilesLoop env parse dbsurl (JSON.str n :: (rest.map JSON.str ++ restFiles)) acc = _
    rw [lumisOfFilesLoop]
    simp only [hrc, hout, ne_eq, not_true_eq_false, false_or, if_neg, not_false_eq_true,
      hparse]
    simp only [JSON.pyStr, encodeLumiRecords, JSON.toIter, exceptBind_ok]
    rw [show ((pairsOf n).map fun p => encodeLumiRecord p.1 p.2) =
        ((pairsOf n).map fun p => encodeLumiRecord p.1 p.2) ++ ([] : List JSON) by simp]
    rw [lumiPairsLoop_encoded_front]
    simp only [lumiPairsLoop, exceptBind_ok]
    rw [ih _ hrest]
    simp [List.append_assoc]

/-- A failing lumi query (nonzero exit or empty stdout) for the file at the
head of the loop raises `ClientException` with the `complain` message. -/
theorem lumisOfFilesLoop_head_query_failure (env : String → ExecResult)
    (parse : String → JSON) (dbsurl : String) (f : JSON) (rest : List JSON)
    (acc : List (JSON × JSON))
    (h : (env (lumiFileCmd dbsurl f)).returncode ≠ 0 ∨
         (env (lumiFileCmd dbsurl f)).stdout = "") :
    lumisOfFilesLoop env parse dbsurl (f :: rest) acc =
      .error (.clientException (complainMsg (lumiFileCmd dbsurl f)
        (env (lumiFileCmd dbsurl f)).stdout (env (lumiFileCmd dbsurl f)).stderr
        (env (lumiFileCmd dbsurl f)).returncode)) := by
  simp only [lumisOfFilesLoop]
  rw [if_pos h]

/-- A successful lumi query whose response holds a malformed record (after
a well-formed prefix) aborts the loop with that record's extraction
error. -/
theorem lumisOfFilesLoop_head_malformed (env : String → ExecResult)
    (parse : String → JSON) (dbsurl : String) (f : JSON) (rest : List JSON)
    (goodPairs : List (Int × Int)) (bad : JSON) (post : List JSON) (e : PyError)
    (acc : List (JSON × JSON))
    (hrc : (env (lumiFileCmd dbsurl f)).returncode = 0)
    (hout : (env (lumiFileCmd dbsurl f)).stdout ≠ "")
    (hparse : parse (env (lumiFileCmd dbsurl f)).stdout =
      .arr ((goodPairs.map fun p => encodeLumiRecord p.1 p.2) ++ bad :: post))
    (hbad : lumiRecordPair bad = .error e) :
    lumisOfFilesLoop env parse dbsurl (f :: rest) acc = .error e := by
  simp only [lumisOfFilesLoop]
  rw [if_neg (by simp [hrc, hout]), hparse]
  simp only [JSON.toIter, exceptBind_ok]
  rw [lumiPairsLoop_encoded_error _ _ _ _ hbad]
  rfl

/-- After a successful, well-formed file-enumeration query the function
reduces to the lumi loop over the valid file names. -/
theorem getLumiListInValidFiles_phase1 (env : String → ExecResult)
    (parse : String → JSON) (dataset dbsurl : String) (files : List (Bool × String))
    (h0 : (env (fileDatasetCmd dbsurl dataset)).returncode = 0)
    (h1 : (env (fileDatasetCmd dbsurl dataset)).stdout ≠ "")
    (h2 : parse (env (fileDatasetCmd dbsurl dataset)).stdout = encodeFileRecords files) :
    getLumiListInValidFiles env parse dataset dbsurl = do
      let pairs ← lumisOfFilesLoop env parse dbsurl
        ((files.filter fun f => f.1).map fun f => JSON.str f.2) []
      return ⟨pairs⟩ := by
  simp only [getLumiListInValidFiles]
  rw [if_neg (by simp [h0, h1]), h2]
  simp only [encodeFileRecords, JSON.toIter, exceptBind_ok]
  rw [show (files.map fun f => encodeFileRecord f.1 f.2) =
      (files.map fun f => encodeFileRecord f.1 f.2) ++ ([] : List JSON) by simp]
  rw [validFilesLoop_encoded_front]
  simp only [validFilesLoop, exceptBind_ok, List.nil_append]

/-! ## Sample environments for concrete instantiations -/

/-- Sample environment: dataset `/A/B/C` has one invalid file `f1` and one
valid file `f2` whose lumis are (1,10) and (1,11) — the scenario of spec
section 8. -/
def dasEnvSample : String → ExecResult := fun cmd =>
  if cmd = fileDatasetCmd "phys03" "/A/B/C" then ⟨"FILES", "", 0⟩
  else if cmd = lumiFileCmd "phys03" (.str "f2") then ⟨"LUMIS2", "", 0⟩
  else ⟨"", "das error", 1⟩

/-- Parser for `dasEnvSample`. -/
def dasParseSample : String → JSON := fun s =>
  if s = "FILES" then encodeFileRecords [(false, "f1"), (true, "f2")]
  else if s = "LUMIS2" then encodeLumiRecords [(1, 10), (1, 11)]
  else .null

/-- Pair map for `dasEnvSample`. -/
def dasPairsSample : String → List (Int × Int) := fun n =>
  if n = "f2" then [(1, 10), (1, 11)] else []

/-- Sample environment: a dataset whose file-enumeration query succeeds
with zero file records. -/
def dasEnvEmpty : String → ExecResult := fun cmd =>
  if cmd = fileDatasetCmd "phys03" "/EMPTY/DS/X" then ⟨"NOFILES", "", 0⟩
  else ⟨"", "", 1⟩

/-- Parser for `dasEnvEmpty`. -/
def dasParseEmpty : String → JSON := fun s =>
  if s = "NOFILES" then encodeFileRecords [] else .null

/-! ## Claims about `getLumiListInValidFiles` -/

/-- C1: for a dataset response listing files with validity flags, the
returned interval-list holds exactly the (run, lumi) pairs of the lumi
queries of the files whose flag is true — invalid files contribute
nothing, and the pairs appear in service order, with no deduplication and
no sorting (the list is the in-order concatenation over valid files). -/
theorem getLumiList_valid_files_exact
    (env : String → ExecResult) (parse : String → JSON) (dataset dbsurl : String)
    (files : List (Bool × String)) (pairsOf : String → List (Int × Int))
    (h0 : (env (fileDatasetCmd dbsurl dataset)).returncode = 0)
    (h1 : (env (fileDatasetCmd dbsurl dataset)).stdout ≠ "")
    (h2 : parse (env (fileDatasetCmd dbsurl dataset)).stdout = encodeFileRecords files)
    (h3 : ∀ f ∈ files, f.1 = true → lumiQueryOk env parse dbsurl pairsOf (.str f.2)) :
    getLumiListInValidFiles env parse dataset dbsurl =
      .ok ⟨((files.filter fun f => f.1).map fun f => f.2).flatMap
            fun n => (pairsOf n).map fun p => (JSON.num p.1, JSON.num p.2)⟩ := by
  rw [getLumiListInValidFiles_phase1 env parse dataset dbsurl files h0 h1 h2]
  rw [show ((files.filter fun f => f.1).map fun f => JSON.str f.2) =
      (((files.filter fun f => f.1).map fun f => f.2).map JSON.str) by
    simp [List.map_map]]
  rw [show (((files.filter fun f => f.1).map fun f => f.2).map JSON.str) =
      (((files.filter fun f => f.1).map fun f => f.2).map JSON.str) ++ ([] : List JSON) by
    simp]
  rw [lumisOfFilesLoop_front env parse dbsurl pairsOf _ [] []]
  · rfl
  · intro n hn
    obtain ⟨f, hf, rfl⟩ := List.mem_map.mp hn
    obtain ⟨hmem, hvalid⟩ := List.mem_filter.mp hf
    exact h3 f hmem hvalid

/-- Witness for C1: the spec section 8 scenario — two files, one invalid;
the valid one carries lumis (1,10) and (1,11); exactly those two pairs
come back, in order. -/
theorem getLumiList_valid_files_exact_witness :
    getLumiListInValidFiles dasEnvSample dasParseSample "/A/B/C" "phys03" =
      .ok ⟨[(JSON.num 1, JSON.num 10), (JSON.num 1, JSON.num 11)]⟩ := by
  have h := getLumiList_valid_files_exact dasEnvSample dasParseSample "/A/B/C" "phys03"
    [(false, "f1"), (true, "f2")] dasPairsSample
    rfl (by decide) rfl
    (by
      intro f hf hv
      simp only [List.mem_cons, List.not_mem_nil, or_false] at hf
      rcases hf with rfl | rfl
      · cases hv
      · exact ⟨rfl, by decide, rfl⟩)
  exact h.trans rfl

/-- C2: a dataset whose file-enumeration query succeeds but yields zero
valid files (all flags false, or no files at all) resolves to an empty
interval-list without an error. -/
theorem getLumiList_zero_valid_files_empty
    (env : String → ExecResult) (parse : String → JSON) (dataset dbsurl : String)
    (files : List (Bool × String))
    (h0 : (env (fileDatasetCmd dbsurl dataset)).returncode = 0)
    (h1 : (env (fileDatasetCmd dbsurl dataset)).stdout ≠ "")
    (h2 : parse (env (fileDatasetCmd dbsurl dataset)).stdout = encodeFileRecords files)
    (h3 : ∀ f ∈ files, f.1 = false) :
    getLumiListInValidFiles env parse dataset dbsurl = .ok ⟨[]⟩ := by
  rw [getLumiListInValidFiles_phase1 env parse dataset dbsurl files h0 h1 h2]
  rw [show files.filter (fun f => f.1) = [] from
    List.filter_eq_nil_iff.mpr (fun f hf => by simp [h3 f hf])]
  rfl

/-- Witness for C2: a dataset with zero files yields the empty
interval-list. -/
theorem getLumiList_zero_valid_files_empty_witness :
    getLumiListInValidFiles dasEnvEmpty dasParseEmpty "/EMPTY/DS/X" "phys03" = .ok ⟨[]⟩ :=
  getLumiList_zero_valid_files_empty dasEnvEmpty dasParseEmpty "/EMPTY/DS/X" "phys03" []
    rfl (by decide) rfl (by intro f hf; cases hf)

/-- The `complain` message embeds the failing command verbatim and, when
non-empty, the captured stdout and stderr (each with its newlines
indented). -/
theorem complainMsg_contains (cmd stdout stderr : String) (rc : Int) :
    (∃ a b, complainMsg cmd stdout stderr rc = a ++ cmd ++ b) ∧
    (stdout ≠ "" → ∃ a b, complainMsg cmd stdout stderr rc =
        a ++ replaceNewlines "\n    " stdout ++ b) ∧
    (stderr ≠ "" → ∃ a b, complainMsg cmd stdout stderr rc =
        a ++ replaceNewlines "\n    " stderr ++ b) := by
  simp only [complainMsg]
  by_cases ho : stdout = ""
  · by_cases he : stderr = ""
    · rw [if_neg (by simp [he]), if_neg (by simp [ho])]
      exact ⟨⟨"Failed executing ", ". Exitcode is " ++ toString rc,
          by simp [String.append_assoc]⟩,
        fun h => absurd ho h, fun h => absurd he h⟩
    · rw [if_pos he, if_neg (by simp [ho])]
      exact ⟨⟨"Failed executing ", (". Exitcode is " ++ toString rc) ++
            ("\n  Stderr:\n    " ++ replaceNewlines "\n    " stderr),
          by simp [String.append_assoc]⟩,
        fun h => absurd ho h,
        fun _ => ⟨("Failed executing " ++ cmd ++ ". Exitcode is " ++ toString rc) ++
            "\n  Stderr:\n    ", "", by simp [String.append_assoc]⟩⟩
  · by_cases he : stderr = ""
    · rw [if_neg (by simp [he]), if_pos ho]
      exact ⟨⟨"Failed executing ", (". Exitcode is " ++ toString rc) ++
            ("\n  Stdout:\n    " ++ replaceNewlines "\n    " stdout),
          by simp [String.append_assoc]⟩,
        fun _ => ⟨("Failed executing " ++ cmd ++ ". Exitcode is " ++ toString rc) ++
            "\n  Stdout:\n    ", "", by simp [String.append_assoc]⟩,
        fun h => absurd he h⟩
    · rw [if_pos he, if_pos ho]
      exact ⟨⟨"Failed executing ", (". Exitcode is " ++ toString rc) ++
            ("\n  Stdout:\n    " ++ replaceNewlines "\n    " stdout) ++
            ("\n  Stderr:\n    " ++ replaceNewlines "\n    " stderr),
          by simp [String.append_assoc]⟩,
        fun _ => ⟨("Failed executing " ++ cmd ++ ". Exitcode is " ++ toString rc) ++
            "\n  Stdout:\n    ",
            "\n  Stderr:\n    " ++ replaceNewlines "\n    " stderr,
          by simp [String.append_assoc]⟩,
        fun _ => ⟨("Failed executing " ++ cmd ++ ". Exitcode is " ++ toString rc) ++
            ("\n  Stdout:\n    " ++ replaceNewlines "\n    " stdout) ++
            "\n  Stderr:\n    ", "", by simp [String.append_assoc]⟩⟩

/-- Environment in which every dasgoclient invocation fails. -/
def dasEnvDown : String → ExecResult := fun _ => ⟨"", "connection refused", 7⟩

/-- Parser that never recognises its input (unreachable on failure paths). -/
def dasParseNull : String → JSON := fun _ => .null

/-- Environment in which the file query reports a single valid file `g1`
whose lumi query then fails. -/
def dasEnvLumiFail : String → ExecResult := fun cmd =>
  if cmd = fileDatasetCmd "phys03" "/A/B/C" then ⟨"FILES1", "", 0⟩
  else ⟨"", "timeout", 2⟩

/-- Parser for `dasEnvLumiFail`. -/
def dasParseLumiFail : String → JSON := fun s =>
  if s = "FILES1" then encodeFileRecords [(true, "g1")] else .null

/-- C3: a sub-query (file enumeration, first conjunct, or per-file lumi
enumeration, second conjunct) whose command exits nonzero or prints
nothing makes the whole resolution abort with a `ClientException` whose
message embeds the failing command (and, via `complainMsg_contains`, its
captured output); no interval-list is produced. -/
theorem getLumiList_subquery_failure_raises :
    (∀ (env : String → ExecResult) (parse : String → JSON) (dataset dbsurl : String),
      (env (fileDatasetCmd dbsurl dataset)).returncode ≠ 0 ∨
        (env (fileDatasetCmd dbsurl dataset)).stdout = "" →
      getLumiListInValidFiles env parse dataset dbsurl =
        .error (.clientException (complainMsg (fileDatasetCmd dbsurl dataset)
          (env (fileDatasetCmd dbsurl dataset)).stdout
          (env (fileDatasetCmd dbsurl dataset)).stderr
          (env (fileDatasetCmd dbsurl dataset)).returncode)) ∧
      (∃ a b, complainMsg (fileDatasetCmd dbsurl dataset)
          (env (fileDatasetCmd dbsurl dataset)).stdout
          (env (fileDatasetCmd dbsurl dataset)).stderr
          (env (fileDatasetCmd dbsurl dataset)).returncode =
          a ++ fileDatasetCmd dbsurl dataset ++ b))
  ∧ (∀ (env : String → ExecResult) (parse : String → JSON) (dataset dbsurl : String)
      (files : List (Bool × String)) (pairsOf : String → List (Int × Int))
      (vpre : List String) (badName : String) (vpost : List String),
      (env (fileDatasetCmd dbsurl dataset)).returncode = 0 →
      (env (fileDatasetCmd dbsurl dataset)).stdout ≠ "" →
      parse (env (fileDatasetCmd dbsurl dataset)).stdout = encodeFileRecords files →
      ((files.filter fun f => f.1).map fun f => f.2) = vpre ++ badName :: vpost →
      (∀ n ∈ vpre, lumiQueryOk env parse dbsurl pairsOf (.str n)) →
      (env (lumiFileCmd dbsurl (.str badName))).returncode ≠ 0 ∨
        (env (lumiFileCmd dbsurl (.str badName))).stdout = "" →
      getLumiListInValidFiles env parse dataset dbsurl =
        .error (.clientException (complainMsg (lumiFileCmd dbsurl (.str badName))
          (env (lumiFileCmd dbsurl (.str badName))).stdout
          (env (lumiFileCmd dbsurl (.str badName))).stderr
          (env (lumiFileCmd dbsurl (.str badName))).returncode)) ∧
      (∃ a b, complainMsg (lumiFileCmd dbsurl (.str badName))
          (env (lumiFileCmd dbsurl (.str badName))).stdout
          (env (lumiFileCmd dbsurl (.str badName))).stderr
          (env (lumiFileCmd dbsurl (.str badName))).returncode =
          a ++ lumiFileCmd dbsurl (.str badName) ++ b)) := by
  constructor
  · intro env parse dataset dbsurl h
    refine ⟨?_, (complainMsg_contains _ _ _ _).1⟩
    simp only [getLumiListInValidFiles]
    rw [if_pos h]
  · intro env parse dataset dbsurl files pairsOf vpre badName vpost h0 h1 h2 hsplit hpre hbad
    refine ⟨?_, (complainMsg_contains _ _ _ _).1⟩
    rw [getLumiListInValidFiles_phase1 env parse dataset dbsurl files h0 h1 h2]
    rw [show ((files.filter fun f => f.1).map fun f => JSON.str f.2) =
        (((files.filter fun f => f.1).map fun f => f.2).map JSON.str) by
      simp [List.map_map]]
    rw [hsplit, List.map_append, List.map_cons]
    rw [lumisOfFilesLoop_front env parse dbsurl pairsOf vpre _ [] hpre]
    rw [lumisOfFilesLoop_head_query_failure env parse dbsurl _ _ _ hbad]
    rfl

/-- Witness for C3: both failure modes at concrete environments — a failing
file-enumeration query and a failing lumi query for the valid file `g1`. -/
theorem getLumiList_subquery_failure_raises_witness :
    (getLumiListInValidFiles dasEnvDown dasParseNull "/A/B/C" "phys03" =
      .error (.clientException (complainMsg (fileDatasetCmd "phys03" "/A/B/C")
        (dasEnvDown (fileDatasetCmd "phys03" "/A/B/C")).stdout
        (dasEnvDown (fileDatasetCmd "phys03" "/A/B/C")).stderr
        (dasEnvDown (fileDatasetCmd "phys03" "/A/B/C")).returncode)))
  ∧ (getLumiListInValidFiles dasEnvLumiFail dasParseLumiFail "/A/B/C" "phys03" =
      .error (.clientException (complainMsg (lumiFileCmd "phys03" (.str "g1"))
        (dasEnvLumiFail (lumiFileCmd "phys03" (.str "g1"))).stdout
        (dasEnvLumiFail (lumiFileCmd "phys03" (.str "g1"))).stderr
        (dasEnvLumiFail (lumiFileCmd "phys03" (.str "g1"))).returncode))) :=
  ⟨(getLumiList_subquery_failure_raises.1 dasEnvDown dasParseNull "/A/B/C" "phys03"
      (by decide)).1,
   (getLumiList_subquery_failure_raises.2 dasEnvLumiFail dasParseLumiFail "/A/B/C" "phys03"
      [(true, "g1")] (fun _ => []) [] "g1" [] rfl (by decide) rfl rfl
      (by intro n hn; cases hn) (by decide)).1⟩

/-- A lookup / indexing error is never the module's `ClientException`. -/
theorem isLookup_ne_clientException (e : PyError) (h : e.isLookup = true) :
    ∀ msg, e ≠ .clientException msg := by
  cases e <;> simp [PyError.isLookup] at h ⊢

/-- Environment whose file-enumeration response contains a record without
the `file` key. -/
def dasEnvBadFileRec : String → ExecResult := fun cmd =>
  if cmd = fileDatasetCmd "phys03" "/A/B/C" then ⟨"BADF", "", 0⟩ else ⟨"", "", 1⟩

/-- Parser for `dasEnvBadFileRec`. -/
def dasParseBadFileRec : String → JSON := fun s =>
  if s = "BADF" then .arr [.obj [("das", .null)]] else .null

/-- Environment with one valid file `h1` whose lumi response contains a
record whose `lumi` value is an empty list. -/
def dasEnvBadLumiRec : String → ExecResult := fun cmd =>
  if cmd = fileDatasetCmd "phys03" "/A/B/C" then ⟨"FILESH", "", 0⟩
  else if cmd = lumiFileCmd "phys03" (.str "h1") then ⟨"BADL", "", 0⟩
  else ⟨"", "", 1⟩

/-- Parser for `dasEnvBadLumiRec`. -/
def dasParseBadLumiRec : String → JSON := fun s =>
  if s = "FILESH" then encodeFileRecords [(true, "h1")]
  else if s = "BADL" then .arr [.obj [("lumi", .arr [])]] else .null

/-- C10: a query-response record that does not carry the expected nested
single-element shape makes `getLumiListInValidFiles` fail with that
record's own unhandled lookup / indexing error — never with the module's
diagnostic `ClientException`.  First conjunct: a malformed record in the
file-enumeration response; second conjunct: a malformed record in a lumi
response of a valid file. -/
theorem getLumiList_malformed_record_unhandled :
    (∀ (env : String → ExecResult) (parse : String → JSON) (dataset dbsurl : String)
      (pre : List (Bool × String)) (bad : JSON) (post : List JSON) (e : PyError),
      (env (fileDatasetCmd dbsurl dataset)).returncode = 0 →
      (env (fileDatasetCmd dbsurl dataset)).stdout ≠ "" →
      parse (env (fileDatasetCmd dbsurl dataset)).stdout =
        .arr ((pre.map fun f => encodeFileRecord f.1 f.2) ++ bad :: post) →
      fileRecordName bad = .error e →
      getLumiListInValidFiles env parse dataset dbsurl = .error e ∧
      e.isLookup = true ∧ ∀ msg, e ≠ .clientException msg)
  ∧ (∀ (env : String → ExecResult) (parse : String → JSON) (dataset dbsurl : String)
      (files : List (Bool × String)) (pairsOf : String → List (Int × Int))
      (vpre : List String) (fname : String) (vpost : List String)
      (goodPairs : List (Int × Int)) (bad : JSON) (post : List JSON) (e : PyError),
      (env (fileDatasetCmd dbsurl dataset)).returncode = 0 →
      (env (fileDatasetCmd dbsurl dataset)).stdout ≠ "" →
      parse (env (fileDatasetCmd dbsurl dataset)).stdout = encodeFileRecords files →
      ((files.filter fun f => f.1).map fun f => f.2) = vpre ++ fname :: vpost →
      (∀ n ∈ vpre, lumiQueryOk env parse dbsurl pairsOf (.str n)) →
      (env (lumiFileCmd dbsurl (.str fname))).returncode = 0 →
      (env (lumiFileCmd dbsurl (.str fname))).stdout ≠ "" →
      parse (env (lumiFileCmd dbsurl (.str fname))).stdout =
        .arr ((goodPairs.map fun p => encodeLumiRecord p.1 p.2) ++ bad :: post) →
      lumiRecordPair bad = .error e →
      getLumiListInValidFiles env parse dataset dbsurl = .error e ∧
      e.isLookup = true ∧ ∀ msg, e ≠ .clientException msg) := by
  constructor
  · intro env parse dataset dbsurl pre bad post e h0 h1 hparse hbad
    have hl := fileRecordName_error_isLookup bad e hbad
    refine ⟨?_, hl, isLookup_ne_clientException e hl⟩
    simp only [getLumiListInValidFiles]
    rw [if_neg (by simp [h0, h1]), hparse]
    simp only [JSON.toIter, exceptBind_ok]
    rw [validFilesLoop_encoded_error pre bad post e hbad]
    rfl
  · intro env parse dataset dbsurl files pairsOf vpre fname vpost goodPairs bad post e
      h0 h1 h2 hsplit hpre hrc hout hparse2 hbad
    have hl := lumiRecordPair_error_isLookup bad e hbad
    refine ⟨?_, hl, isLookup_ne_clientException e hl⟩
    rw [getLumiListInValidFiles_phase1 env parse dataset dbsurl files h0 h1 h2]
    rw [show ((files.filter fun f => f.1).map fun f => JSON.str f.2) =
        (((files.filter fun f => f.1).map fun f => f.2).map JSON.str) by
      simp [List.map_map]]
    rw [hsplit, List.map_append, List.map_cons]
    rw [lumisOfFilesLoop_front env parse dbsurl pairsOf vpre _ [] hpre]
    rw [lumisOfFilesLoop_head_malformed env parse dbsurl (.str fname) _ goodPairs bad post e _
      hrc hout hparse2 hbad]
    rfl

/-- Witness for C10: a file record without the `file` key raises an
unhandled `KeyError`, and an empty `lumi` list raises an unhandled
`IndexError`. -/
theorem getLumiList_malformed_record_unhandled_witness :
    (getLumiListInValidFiles dasEnvBadFileRec dasParseBadFileRec "/A/B/C" "phys03" =
      .error (.keyError "file"))
  ∧ (getLumiListInValidFiles dasEnvBadLumiRec dasParseBadLumiRec "/A/B/C" "phys03" =
      .error .indexError) :=
  ⟨(getLumiList_malformed_record_unhandled.1 dasEnvBadFileRec dasParseBadFileRec
      "/A/B/C" "phys03" [] (.obj [("das", .null)]) [] (.keyError "file")
      rfl (by decide) rfl rfl).1,
   (getLumiList_malformed_record_unhandled.2 dasEnvBadLumiRec dasParseBadLumiRec
      "/A/B/C" "phys03" [(true, "h1")] (fun _ => []) [] "h1" [] [] (.obj [("lumi", .arr [])])
      [] .indexError rfl (by decide) rfl rfl (by intro n hn; cases hn) rfl (by decide)
      rfl rfl).1⟩

/-! ## Claims about `curlGetFileFromURL` -/

/-- C4 counterexample: when the curl command itself fails before creating
any destination file (e.g. a name-resolution failure leaves no output
file), the unconditional `os.unlink` raises an unhandled OSError — the
function neither returns 503 nor any HTTP code at all. -/
theorem curl_nonzero_exit_counterexample :
    curlGetFileFromURL ⟨"", "curl: (6) Could not resolve host", 6⟩ none =
      .error .osError ∧
    ¬ ∃ o : CurlOutcome,
      curlGetFileFromURL ⟨"", "curl: (6) Could not resolve host", 6⟩ none = .ok o ∧
      o.httpCode = 503 := by
  refine ⟨rfl, ?_⟩
  rintro ⟨o, ho, -⟩
  rw [show curlGetFileFromURL ⟨"", "curl: (6) Could not resolve host", 6⟩ none =
    .error .osError from rfl] at ho
  cases ho

/-- C4 (amended): when the external download command exits nonzero, the
function returns HTTP status 503 with the destination file deleted,
provided the failed command left a (partial) destination file; when no
file exists at the destination path, the unconditional delete raises an
unhandled OSError instead of returning 503. -/
theorem curl_nonzero_exit (r : ExecResult) (fileAfterCmd : Option String)
    (h : r.returncode ≠ 0) :
    (∀ content, fileAfterCmd = some content →
      curlGetFileFromURL r fileAfterCmd = .ok ⟨503, none, ""⟩)
  ∧ (fileAfterCmd = none → curlGetFileFromURL r fileAfterCmd = .error .osError) := by
  constructor
  · intro content hc
    subst hc
    simp [curlGetFileFromURL, h]
  · intro hc
    subst hc
    simp [curlGetFileFromURL, h]

/-- Witness for C4 (amended): a failed command that left a partial file
yields 503 with the file removed; one that left nothing raises. -/
theorem curl_nonzero_exit_witness :
    (curlGetFileFromURL ⟨"", "curl: (7) Failed to connect", 7⟩ (some "partial data") =
      .ok ⟨503, none, ""⟩)
  ∧ (curlGetFileFromURL ⟨"", "curl: (7) Failed to connect", 7⟩ none = .error .osError) :=
  ⟨(curl_nonzero_exit ⟨"", "curl: (7) Failed to connect", 7⟩ (some "partial data")
      (by decide)).1 "partial data" rfl,
   (curl_nonzero_exit ⟨"", "curl: (7) Failed to connect", 7⟩ none (by decide)).2 rfl⟩

/-- C5: when the command succeeds and stdout parses to the observed HTTP
code, a non-200 code is returned with the destination file's body captured
as `errorDetails` and the file deleted, while a 200 code leaves the file
in place with its downloaded content and returns 200. -/
theorem curl_http_code_outcome (r : ExecResult) (body : String) (code : Int)
    (h0 : r.returncode = 0) (hparse : pyInt r.stdout = some code) :
    (code ≠ 200 → curlGetFileFromURL r (some body) = .ok ⟨code, none, body⟩)
  ∧ (code = 200 → curlGetFileFromURL r (some body) = .ok ⟨200, some body, ""⟩) := by
  constructor <;> intro hc <;> simp [curlGetFileFromURL, h0, hparse, hc]

/-- Witness for C5: an HTTP 404 deletes the file and reports 404 with the
body captured; an HTTP 200 keeps the file and reports 200. -/
theorem curl_http_code_outcome_witness :
    (curlGetFileFromURL ⟨"404", "", 0⟩ (some "not found page") =
      .ok ⟨404, none, "not found page"⟩)
  ∧ (curlGetFileFromURL ⟨"200", "", 0⟩ (some "payload") = .ok ⟨200, some "payload", ""⟩) :=
  ⟨(curl_http_code_outcome ⟨"404", "", 0⟩ "not found page" 404 rfl (by decide)).1
      (by decide),
   (curl_http_code_outcome ⟨"200", "", 0⟩ "payload" 200 rfl (by decide)).2 rfl⟩

/-! ## Claims about `getColumn` -/

/-- `listIndex` returns `i` exactly when the name sits at position `i` and
at no earlier position — Python `list.index` semantics. -/
theorem listIndex_eq_some_iff (a : String) (l : List String) (i : Nat) :
    listIndex a l = some i ↔ l[i]? = some a ∧ ∀ j, j < i → l[j]? ≠ some a := by
  induction l generalizing i with
  | nil => simp [listIndex]
  | cons x xs ih =>
    by_cases hx : x = a
    · subst hx
      simp only [listIndex, if_pos rfl]
      cases i with
      | zero => simp
      | succ k =>
        simp only [List.getElem?_cons_succ]
        constructor
        · intro h; cases h
        · rintro ⟨h1, h2⟩
          have h0 := h2 0 (Nat.succ_pos k)
          simp at h0
    · simp only [listIndex, if_neg hx]
      cases i with
      | zero =>
        simp only [Option.map_eq_some', List.getElem?_cons_zero]
        constructor
        · rintro ⟨k, hk, hkk⟩; cases hkk
        · rintro ⟨h1, -⟩; exact absurd (Option.some.inj h1) hx
      | succ k =>
        simp only [Option.map_eq_some', List.getElem?_cons_succ]
        constructor
        · rintro ⟨m, hm, hmk⟩
          rw [show m = k by omega] at hm
          obtain ⟨h1, h2⟩ := (ih k).mp hm
          refine ⟨h1, ?_⟩
          intro j hj
          cases j with
          | zero => simp [hx]
          | succ n => simpa using h2 n (by omega)
        · rintro ⟨h1, h2⟩
          refine ⟨k, (ih k).mpr ⟨h1, ?_⟩, rfl⟩
          intro n hn
          simpa using h2 (n + 1) (by omega)

/-- `listIndex` finds nothing exactly when the name is absent. -/
theorem listIndex_eq_none_iff (a : String) (l : List String) :
    listIndex a l = none ↔ a ∉ l := by
  induction l with
  | nil => simp [listIndex]
  | cons x xs ih =>
    by_cases hx : x = a
    · subst hx
      simp [listIndex]
    · simp [listIndex, hx, Option.map_eq_none', ih, Ne.symm hx]

/-- C6: when `desc.columns` holds the column name (first occurrence at
position `i`) and `result` has a value at that position, `getColumn`
returns that value with the literal string `"None"` translated to an
absent value; when the name is not among the columns it fails with the
lookup error (`list.index` raising `ValueError`). -/
theorem getColumn_spec (d : DictResult) (name : String) :
    (∀ (i : Nat) (v : JSON), d.columns[i]? = some name →
      (∀ j, j < i → d.columns[j]? ≠ some name) →
      d.result[i]? = some v → getColumn d name = .ok (noneSentinel v))
  ∧ (name ∉ d.columns → getColumn d name = .error .valueError) := by
  constructor
  · intro i v hi hfirst hv
    have hidx : listIndex name d.columns = some i :=
      (listIndex_eq_some_iff _ _ _).mpr ⟨hi, hfirst⟩
    simp [getColumn, hidx, hv]
  · intro h
    have hidx : listIndex name d.columns = none := (listIndex_eq_none_iff _ _).mpr h
    simp [getColumn, hidx]

/-- Witness for C6: the sentinel string `"None"` at the target column comes
back as an absent value, an ordinary value comes back unchanged, and a
missing column name fails with the lookup error. -/
theorem getColumn_spec_witness :
    (getColumn ⟨["taskname", "status"], [.str "t1", .str "None"]⟩ "status" = .ok none)
  ∧ (getColumn ⟨["taskname", "status"], [.str "t1", .str "None"]⟩ "taskname" =
      .ok (some (.str "t1")))
  ∧ (getColumn ⟨["taskname", "status"], [.str "t1", .str "None"]⟩ "bogus" =
      .error .valueError) := by
  refine ⟨?_, ?_, ?_⟩
  · have h := (getColumn_spec ⟨["taskname", "status"], [.str "t1", .str "None"]⟩
      "status").1 1 (.str "None") rfl
      (by intro j hj; have hj0 : j = 0 := by omega
          subst hj0; simp) rfl
    exact h.trans rfl
  · have h := (getColumn_spec ⟨["taskname", "status"], [.str "t1", .str "None"]⟩
      "taskname").1 0 (.str "t1") rfl (by intro j hj; omega) rfl
    exact h.trans rfl
  · exact (getColumn_spec ⟨["taskname", "status"], [.str "t1", .str "None"]⟩
      "bogus").2 (by decide)

/-! ## Claims about `getUsernameFromCRIC` -/

/-- The username string the shell pipeline extracts: the stdout of the
parse command run on the query command's stdout (the pipeline's own exit
code is ignored by the source, line 92). -/
def cricParsedUsername (env : String → ExecResult) (userProxy proxyFileName : Option String)
    (capath : String) : String :=
  (env (cricParseCmd
    (env (cricQueryCmd capath ((resolvedProxy userProxy proxyFileName).getD ""))).stdout)).stdout

/-- The failure condition stated by the claim, over the embedded
operations: the credential file cannot be located, or the query command
returns a nonzero status or empty output, or the parsed username is empty
or the literal string `null`. -/
def cricFailureCondition (env : String → ExecResult) (userProxy proxyFileName : Option String)
    (capath : String) : Prop :=
  falsyStr (resolvedProxy userProxy proxyFileName) = true ∨
  (env (cricQueryCmd capath ((resolvedProxy userProxy proxyFileName).getD ""))).returncode ≠ 0 ∨
  (env (cricQueryCmd capath ((resolvedProxy userProxy proxyFileName).getD ""))).stdout = "" ∨
  cricParsedUsername env userProxy proxyFileName capath = "" ∨
  cricParsedUsername env userProxy proxyFileName capath = "null"

/-- C7: `getUsernameFromCRIC` raises `UsernameException` exactly when the
claim's failure condition holds (no credential file, failed or empty
query, empty or `null` parsed username), and otherwise returns the parsed
username string. -/
theorem getUsernameFromCRIC_spec (env : String → ExecResult)
    (userProxy proxyFileName : Option String) (capath : String) :
    ((∃ msg, getUsernameFromCRIC env userProxy capath proxyFileName =
        .error (.usernameException msg)) ↔
      cricFailureCondition env userProxy proxyFileName capath)
  ∧ (¬ cricFailureCondition env userProxy proxyFileName capath →
      getUsernameFromCRIC env userProxy capath proxyFileName =
        .ok (cricParsedUsername env userProxy proxyFileName capath)) := by
  simp only [getUsernameFromCRIC, cricFailureCondition, cricParsedUsername]
  split_ifs with h1 h2 h3
  · exact ⟨⟨fun _ => Or.inl h1, fun _ => ⟨_, rfl⟩⟩, fun hnc => absurd (Or.inl h1) hnc⟩
  · refine ⟨⟨fun _ => ?_, fun _ => ⟨_, rfl⟩⟩, fun hnc => ?_⟩
    · rcases h2 with h | h
      · exact Or.inr (Or.inl h)
      · exact Or.inr (Or.inr (Or.inl h))
    · rcases h2 with h | h
      · exact absurd (Or.inr (Or.inl h)) hnc
      · exact absurd (Or.inr (Or.inr (Or.inl h))) hnc
  · refine ⟨⟨fun _ => ?_, fun _ => ⟨_, rfl⟩⟩, fun hnc => ?_⟩
    · rcases h3 with h | h
      · exact Or.inr (Or.inr (Or.inr (Or.inr h)))
      · exact Or.inr (Or.inr (Or.inr (Or.inl h)))
    · rcases h3 with h | h
      · exact absurd (Or.inr (Or.inr (Or.inr (Or.inr h)))) hnc
      · exact absurd (Or.inr (Or.inr (Or.inr (Or.inl h)))) hnc
  · refine ⟨⟨?_, ?_⟩, fun _ => rfl⟩
    · rintro ⟨msg, hmsg⟩
      cases hmsg
    · intro hc
      rcases hc with h | h | h | h | h
      · exact absurd h h1
      · exact absurd (Or.inl h) h2
      · exact absurd (Or.inr h) h2
      · exact absurd (Or.inr h) h3
      · exact absurd (Or.inl h) h3

/-- CRIC response captured by the sample environment. -/
def cricStdoutSample : String := "login: bob"

/-- Environment in which the CRIC query and the parsing pipeline both
succeed, yielding the username `bob`. -/
def cricEnvOk : String → ExecResult := fun cmd =>
  if cmd = cricQueryCmd "/etc/certs" "/tmp/proxy" then ⟨cricStdoutSample, "", 0⟩
  else if cmd = cricParseCmd cricStdoutSample then ⟨"bob", "", 0⟩
  else ⟨"", "", 1⟩

/-- Witness for C7: on a healthy environment the parsed username `bob` is
returned. -/
theorem getUsernameFromCRIC_spec_witness :
    getUsernameFromCRIC cricEnvOk none "/etc/certs" (some "/tmp/proxy") = .ok "bob" := by
  have h := (getUsernameFromCRIC_spec cricEnvOk none (some "/tmp/proxy") "/etc/certs").2
    (by simp only [cricFailureCondition, cricParsedUsername]; decide)
  exact h.trans rfl

/-! ## Claims about `getMutedStatusInfo` -/

/-- C8: when the status-query collaborator returns normally, the console
level after the call equals its value before (the mute level is in force
only for the collaborator invocation itself), the returned structure is
the collaborator's result unmodified, and a non-empty `statusFailureMsg`
is logged at error level (an empty one is not). -/
theorem getMutedStatusInfo_normal {ε : Type} (muteLevel : Int)
    (statusCall : Int → Except ε StatusDict) (s : ConsoleState) (d : StatusDict)
    (h : statusCall muteLevel = .ok d) :
    (getMutedStatusInfo muteLevel statusCall s).1 = .ok d ∧
    (getMutedStatusInfo muteLevel statusCall s).2.consoleLevel = s.consoleLevel ∧
    (d.statusFailureMsg ≠ "" →
      (getMutedStatusInfo muteLevel statusCall s).2.errorLog = s.errorLog ++
        ["Error while getting status information. Got:\n" ++ d.statusFailureMsg ++ " "]) ∧
    (d.statusFailureMsg = "" →
      (getMutedStatusInfo muteLevel statusCall s).2.errorLog = s.errorLog) := by
  by_cases hm : d.statusFailureMsg = "" <;>
    simp [getMutedStatusInfo, h, hm]

/-- C9: when the collaborator call raises, the exception propagates before
the restore statement runs, so the console level stays at the mute level
(and nothing is logged). -/
theorem getMutedStatusInfo_exception {ε : Type} (muteLevel : Int)
    (statusCall : Int → Except ε StatusDict) (s : ConsoleState) (e : ε)
    (h : statusCall muteLevel = .error e) :
    getMutedStatusInfo muteLevel statusCall s =
      (.error e, { s with consoleLevel := muteLevel }) := by
  simp [getMutedStatusInfo, h]

/-- A status command that returns a structure with an embedded failure
message. -/
def statusCallSample : Int → Except PyError StatusDict :=
  fun _ => .ok ⟨"boom", [("status", .str "SUBMITTED")]⟩

/-- A status command that raises. -/
def statusCallRaise : Int → Except PyError StatusDict :=
  fun _ => .error (.clientException "HTTP 500")

/-- Witness for C8: the collaborator's structure comes back unmodified,
the level 20 from before the call is restored, and the embedded failure
message is logged. -/
theorem getMutedStatusInfo_normal_witness :
    (getMutedStatusInfo 70 statusCallSample ⟨20, []⟩).1 =
      .ok ⟨"boom", [("status", .str "SUBMITTED")]⟩ ∧
    (getMutedStatusInfo 70 statusCallSample ⟨20, []⟩).2.consoleLevel = 20 ∧
    (getMutedStatusInfo 70 statusCallSample ⟨20, []⟩).2.errorLog =
      ["Error while getting status information. Got:\nboom "] := by
  have h := getMutedStatusInfo_normal 70 statusCallSample ⟨20, []⟩
    ⟨"boom", [("status", .str "SUBMITTED")]⟩ rfl
  exact ⟨h.1, h.2.1, by simpa using h.2.2.1 (by decide)⟩

/-- Witness for C9: after a raising collaborator call the console level is
stuck at the mute level 70. -/
theorem getMutedStatusInfo_exception_witness :
    getMutedStatusInfo 70 statusCallRaise ⟨20, ["old"]⟩ =
      (.error (.clientException "HTTP 500"), ⟨70, ["old"]⟩) := by
  have h := getMutedStatusInfo_exception 70 statusCallRaise ⟨20, ["old"]⟩
    (.clientException "HTTP 500") rfl
  exact h.trans rfl
